import Mathlib

/-!
Shallow embedding of the jamespot-todo-api store (`todo-api.ts`) and its
broadcast channel (`fake-socket.ts`).

Every store operation in the source runs inside a `setTimeout` callback and
first samples a success rate; on a failed sample it rejects with
ServerError(500) and touches nothing.  All claims below are about the branch
in which that sample succeeds, so each operation is embedded as a pure
function of the store state (the `todos` array) returning the settled
promise value, the new state, the blob written to storage (if any), and the
messages dispatched on the socket.

A JavaScript promise settles on the FIRST `resolve`/`reject` call; later
calls are ignored.  Several handlers in the source call `reject` without
`return` and keep executing, so an operation can settle with an error while
still mutating state and broadcasting — the embedding keeps result, state,
storage and broadcasts as separate fields to capture exactly that.

JavaScript array semantics used by the source:
  * `arr.splice(start, deleteCount, ...items)` clamps a negative `start` to
    `max(len + start, 0)` and a too-large one to `len`;
  * `arr[i] = v` for `i ≥ len` extends the array with holes; for `i < 0` it
    creates an ordinary string-keyed property that is NOT part of the array
    sequence (invisible to `length`, `splice`, `JSON.stringify`).
Items cells are therefore `Option Todo`, `none` standing for a hole.
-/

namespace TodoApiModel

/-- `Todo` from `todo-api.ts`: `{ description: string; done: boolean }`. -/
structure Todo where
  description : String
  done : Bool
deriving DecidableEq, Repr

/-- One cell of a JavaScript items array: `some` an item, `none` a hole. -/
abbrev Cell := Option Todo

/-- `TodoList` from `todo-api.ts`: `{ items: Todo[]; name: string }`. -/
structure TodoList where
  items : List Cell
  name : String
deriving DecidableEq, Repr

/-- The default used when the embedding reads `todos[i]` via `List.getD` on
a path where the source has already established the index is in range. -/
def emptyList : TodoList := { items := [], name := "" }

/-- `ApiResponseWrapper` / `ApiResponseError`: either `{response}` or
`{error: {code, description}}`. -/
inductive ApiResult (α : Type) where
  | ok (response : α)
  | error (code : Nat) (description : String)
deriving DecidableEq, Repr

/-- `RawMessage` from `fake-socket.ts`: the six message kinds dispatched by
the store, with their payloads. -/
inductive RawMessage where
  | createList (message : TodoList)
  | deleteList (index : Int)
  | addToDo (listIndex : Int) (item : Todo)
  | removeTodo (listIndex : Int) (itemIndex : Int)
  | moveTodo (listIndex : Int) (sourceIndex : Int) (destIndex : Int)
  | editTodo (listIndex : Int) (itemIndex : Int) (newValue : Todo)
deriving DecidableEq, Repr

/-- Outcome of one store operation on the success-sample branch:
the settled promise value, the `this.todos` array afterwards, the blob
written by `saveTodoToStorage` (`none` when it was not called), and the
messages passed to `socket.dispatchMessage`, in order. -/
structure OpResult (α : Type) where
  result : ApiResult α
  todos : List TodoList
  saved : Option (List TodoList)
  broadcasts : List RawMessage
deriving DecidableEq, Repr

/-- The clamped start index of `Array.prototype.splice`:
`start < 0` maps to `max(len + start, 0)`, otherwise to `min(start, len)`. -/
def spliceStart (len : Nat) (start : Int) : Nat :=
  if start < 0 then ((len : Int) + start).toNat else min start.toNat len

/-- `arr.splice(start, deleteCount, ...inserted)` — the resulting array. -/
def jsSplice (l : List α) (start : Int) (deleteCount : Nat)
    (inserted : List α) : List α :=
  let s := spliceStart l.length start
  l.take s ++ inserted ++ l.drop (s + deleteCount)

/-- `arr.splice(start, deleteCount)` — the array of removed elements. -/
def jsSpliceRemoved (l : List α) (start : Int) (deleteCount : Nat) : List α :=
  (l.drop (spliceStart l.length start)).take deleteCount

/-- `arr[i] = v` on a JavaScript array: in range replaces; beyond the end
extends with `hole`s; a negative index writes a non-element property and
leaves the array sequence unchanged. -/
def jsWrite (l : List α) (i : Int) (hole v : α) : List α :=
  if i < 0 then l
  else if i.toNat < l.length then l.set i.toNat v
  else l ++ List.replicate (i.toNat - l.length) hole ++ [v]

/-- `initTodos` from `todo-api.ts`. -/
def initTodos : List TodoList := [{ items := [], name := "my first list" }]

/-- What `window.localStorage` holds under the storage key at construction
time, abstracted to the three cases the constructor distinguishes:
nothing stored, a stored string that fails `JSON.parse` or is not an array,
or a parsed array of lists. -/
inductive StoredBlob where
  | absent
  | malformed
  | parsed (todos : List TodoList)

/-- The `TodoApi` constructor: take the persisted array when there is one,
otherwise fall back to `initTodos`. -/
def loadTodos : StoredBlob → List TodoList
  | .parsed ts => ts
  | _ => initTodos

/-- `createList(name)` (success-sample branch): push `{name, items: []}`,
save, broadcast a copy of the new list, resolve `length - 1`.
(The `if (!currentTodo)` guard in the source can never fire: the array was
just pushed to, so its last element exists.) -/
def createList (todos : List TodoList) (name : String) : OpResult Nat :=
  let newTodos := todos ++ [{ items := [], name := name }]
  { result := .ok (newTodos.length - 1)
    todos := newTodos
    saved := some newTodos
    broadcasts := [.createList { items := [], name := name }] }

/-- `deleteList(listIndex)` (success-sample branch).  The out-of-range
`reject` is NOT followed by `return`, so the splice, the save, the
broadcast and the (ignored) `resolve` all still run. -/
def deleteList (todos : List TodoList) (listIndex : Int) : OpResult Bool :=
  let newTodos := jsSplice todos listIndex 1 []
  { result :=
      if listIndex < 0 ∨ (todos.length : Int) ≤ listIndex then
        .error 400 "index out of bound"
      else .ok true
    todos := newTodos
    saved := some newTodos
    broadcasts := [.deleteList listIndex] }

/-- `addTodo(listIndex, item)` (success-sample branch).  On an out-of-range
index the handler rejects and then, since `todos[listIndex]` is undefined,
returns before mutating or broadcasting. -/
def addTodo (todos : List TodoList) (listIndex : Int) (item : Todo) :
    OpResult Bool :=
  if listIndex < 0 ∨ (todos.length : Int) ≤ listIndex then
    { result := .error 400 "index out of bound"
      todos := todos, saved := none, broadcasts := [] }
  else
    let i := listIndex.toNat
    let currentList := todos.getD i emptyList
    let newTodos :=
      todos.set i { currentList with items := currentList.items ++ [some item] }
    { result := .ok true
      todos := newTodos
      saved := some newTodos
      broadcasts := [.addToDo listIndex item] }

/-- `removeTodo(listIndex, todoIndex)` (success-sample branch).  Both
rejects are followed by `return`, so an invalid index leaves the state
untouched and broadcasts nothing. -/
def removeTodo (todos : List TodoList) (listIndex todoIndex : Int) :
    OpResult Bool :=
  if listIndex < 0 ∨ (todos.length : Int) ≤ listIndex then
    { result := .error 400 "index out of bound"
      todos := todos, saved := none, broadcasts := [] }
  else
    let i := listIndex.toNat
    let currentList := todos.getD i emptyList
    if todoIndex < 0 ∨ (currentList.items.length : Int) ≤ todoIndex then
      { result := .error 400 "index out of bound"
        todos := todos, saved := none, broadcasts := [] }
    else
      let newTodos :=
        todos.set i
          { currentList with items := jsSplice currentList.items todoIndex 1 [] }
      { result := .ok true
        todos := newTodos
        saved := some newTodos
        broadcasts := [.removeTodo listIndex todoIndex] }

/-- `moveTodo(listIndex, sourceIndex, destIndex)` (success-sample branch).
`todos[listIndex]` being undefined (index outside `[0, length)`) rejects
with "Could not find todolist"; then `listIndex` (redundantly, it is known
in range here) and `sourceIndex` are range-checked; then the item is
spliced out of `sourceIndex` and spliced back in at `destIndex`, which
JavaScript clamps into the shortened array. -/
def moveTodo (todos : List TodoList) (listIndex sourceIndex destIndex : Int) :
    OpResult Bool :=
  if listIndex < 0 ∨ (todos.length : Int) ≤ listIndex then
    { result := .error 400 "Could not find todolist"
      todos := todos, saved := none, broadcasts := [] }
  else
    let i := listIndex.toNat
    let todoList := todos.getD i emptyList
    if listIndex < 0 ∨ (todos.length : Int) ≤ listIndex ∨
        sourceIndex < 0 ∨ (todoList.items.length : Int) ≤ sourceIndex then
      { result := .error 400 "index out of bound"
        todos := todos, saved := none, broadcasts := [] }
    else
      let todo := jsSpliceRemoved todoList.items sourceIndex 1
      let shortened := jsSplice todoList.items sourceIndex 1 []
      let newTodos :=
        todos.set i { todoList with items := jsSplice shortened destIndex 0 todo }
      { result := .ok true
        todos := newTodos
        saved := some newTodos
        broadcasts := [.moveTodo listIndex sourceIndex destIndex] }

/-- `editTodo(listIndex, itemIndex, newValue)` (success-sample branch).
`todos[listIndex]` undefined rejects (lower-case "could not find todolist")
and returns; but the `itemIndex` range check rejects WITHOUT `return`, so
the assignment `todoList.items[itemIndex] = {...newValue}`, the save and
the broadcast still run, and the promise keeps the earlier rejection. -/
def editTodo (todos : List TodoList) (listIndex itemIndex : Int)
    (newValue : Todo) : OpResult Bool :=
  if listIndex < 0 ∨ (todos.length : Int) ≤ listIndex then
    { result := .error 400 "could not find todolist"
      todos := todos, saved := none, broadcasts := [] }
  else
    let i := listIndex.toNat
    let todoList := todos.getD i emptyList
    let newTodos :=
      todos.set i
        { todoList with
          items := jsWrite todoList.items itemIndex none (some newValue) }
    { result :=
        if listIndex < 0 ∨ (todos.length : Int) ≤ listIndex ∨
            itemIndex < 0 ∨ (todoList.items.length : Int) ≤ itemIndex then
          .error 400 "index out of bound"
        else .ok true
      todos := newTodos
      saved := some newTodos
      broadcasts := [.editTodo listIndex itemIndex newValue] }

/-- `SocketMessage` from `fake-socket.ts`: `{sequenceId, ...rawMessage}`. -/
structure SocketMessage where
  sequenceId : Nat
  raw : RawMessage
deriving DecidableEq, Repr

/-- `FakeSocket` state: the registered clients (in registration order) and
the shared sequence counter.  Clients are drawn from an arbitrary type `α`
with decidable equality standing for function identity (`!==`). -/
structure FakeSocket (α : Type) where
  clients : List α
  sequenceId : Nat
deriving DecidableEq, Repr

/-- `new FakeSocket()`: no clients, counter 0. -/
def FakeSocket.new (α : Type) : FakeSocket α := { clients := [], sequenceId := 0 }

/-- `addListener(client)`: `this.clients.push(client)`. -/
def FakeSocket.addListener (s : FakeSocket α) (client : α) : FakeSocket α :=
  { s with clients := s.clients ++ [client] }

/-- `removeListener(client)`: keep the clients that are not `client`. -/
def FakeSocket.removeListener [DecidableEq α] (s : FakeSocket α) (client : α) :
    FakeSocket α :=
  { s with clients := s.clients.filter (fun currentClient => currentClient ≠ client) }

/-- `dispatchMessage(message)`: for each client, in registration order, the
invocation `client({sequenceId: this.sequenceId, ...message})`.  Nothing in
the class ever assigns `this.sequenceId` after the constructor, so the
socket state itself is unchanged by a dispatch. -/
def FakeSocket.dispatchMessage (s : FakeSocket α) (message : RawMessage) :
    List (α × SocketMessage) :=
  s.clients.map (fun client => (client, { sequenceId := s.sequenceId, raw := message }))

/-- Sample todo used in concrete scenarios. -/
def itemA : Todo := { description := "A", done := false }

/-- Sample todo used in concrete scenarios. -/
def itemB : Todo := { description := "B", done := false }

/-- Sample todo used in concrete scenarios. -/
def itemC : Todo := { description := "C", done := false }

/-- Sample two-list store state used in concrete scenarios. -/
def sampleTodos : List TodoList :=
  [{ items := [some itemA], name := "one" }, { items := [some itemB], name := "two" }]

/-- Sample socket with two registered clients, used in concrete scenarios. -/
def sampleSocket : FakeSocket Nat := { clients := [1, 2], sequenceId := 0 }

/-! ### Helper lemmas about the JavaScript array primitives -/

theorem toNat_coe (n : Nat) : ((n : Int)).toNat = n := rfl

theorem set_getElem_self (l : List α) (i : Nat) (h : i < l.length) :
    l.set i l[i] = l := by
  induction l generalizing i with
  | nil => simp at h
  | cons a t ih =>
    cases i with
    | zero => rfl
    | succ n =>
      have hn : n < t.length := by simpa using h
      simp [ih n hn]

theorem set_getD_self (l : List α) (i : Nat) (d : α) (h : i < l.length) :
    l.set i (l.getD i d) = l := by
  rw [List.getD_eq_getElem l d h]
  exact set_getElem_self l i h

theorem getD_set_self (l : List α) (i : Nat) (x d : α) (h : i < l.length) :
    (l.set i x).getD i d = x := by
  rw [List.getD_eq_getElem?_getD, List.getElem?_set_self h]
  rfl

theorem spliceStart_natCast (len n : Nat) : spliceStart len (n : Int) = min n len := by
  unfold spliceStart
  rw [if_neg (not_lt.mpr (Int.natCast_nonneg n))]
  rfl

theorem jsSplice_eraseIdx (l : List α) (n : Nat) (h : n < l.length) :
    jsSplice l (n : Int) 1 [] = l.eraseIdx n := by
  unfold jsSplice
  rw [spliceStart_natCast, min_eq_left h.le, List.eraseIdx_eq_take_drop_succ]
  simp

theorem jsSpliceRemoved_one (l : List α) (n : Nat) (h : n < l.length) :
    jsSpliceRemoved l (n : Int) 1 = [l[n]] := by
  unfold jsSpliceRemoved
  rw [spliceStart_natCast, min_eq_left h.le, ← List.get_drop_eq_drop l n h]
  rfl

theorem jsSplice_move (l : List α) (s : Nat) (d : Int) (hs : s < l.length)
    (hd : 0 ≤ d) :
    jsSplice (jsSplice l (s : Int) 1 []) d 0 (jsSpliceRemoved l (s : Int) 1) =
      (l.eraseIdx s).take (min d.toNat (l.eraseIdx s).length) ++
        l[s] :: (l.eraseIdx s).drop (min d.toNat (l.eraseIdx s).length) := by
  rw [jsSplice_eraseIdx l s hs, jsSpliceRemoved_one l s hs]
  unfold jsSplice
  rw [show spliceStart (l.eraseIdx s).length d = min d.toNat (l.eraseIdx s).length by
        unfold spliceStart; rw [if_neg (not_lt.mpr hd)]]
  simp

theorem jsSplice_move_self (l : List α) (s : Nat) (hs : s < l.length) :
    jsSplice (jsSplice l (s : Int) 1 []) (s : Int) 0
      (jsSpliceRemoved l (s : Int) 1) = l := by
  rw [jsSplice_move l s (s : Int) hs (Int.natCast_nonneg s)]
  have hlen : (l.take s).length = s := by
    rw [List.length_take]; exact min_eq_left hs.le
  have hE : l.eraseIdx s = l.take s ++ l.drop (s + 1) :=
    List.eraseIdx_eq_take_drop_succ l s
  have hmin : min ((s : Int)).toNat (l.eraseIdx s).length = s := by
    rw [toNat_coe, List.length_eraseIdx_of_lt hs]
    omega
  rw [hmin, hE, List.take_left' hlen, List.drop_left' hlen,
    List.get_drop_eq_drop l s hs, List.take_append_drop]

/-! ### Success-path characterizations of the store operations -/

theorem addTodo_valid (todos : List TodoList) (i : Nat) (item : Todo)
    (hi : i < todos.length) :
    addTodo todos (i : Int) item =
      { result := .ok true
        todos := todos.set i
          { todos.getD i emptyList with
            items := (todos.getD i emptyList).items ++ [some item] }
        saved := some (todos.set i
          { todos.getD i emptyList with
            items := (todos.getD i emptyList).items ++ [some item] })
        broadcasts := [.addToDo (i : Int) item] } := by
  unfold addTodo
  rw [if_neg (by omega : ¬((i : Int) < 0 ∨ (todos.length : Int) ≤ (i : Int)))]
  simp only [toNat_coe]

theorem removeTodo_valid (todos : List TodoList) (i ti : Nat)
    (hi : i < todos.length)
    (hti : ti < (todos.getD i emptyList).items.length) :
    removeTodo todos (i : Int) (ti : Int) =
      { result := .ok true
        todos := todos.set i
          { todos.getD i emptyList with
            items := (todos.getD i emptyList).items.eraseIdx ti }
        saved := some (todos.set i
          { todos.getD i emptyList with
            items := (todos.getD i emptyList).items.eraseIdx ti })
        broadcasts := [.removeTodo (i : Int) (ti : Int)] } := by
  unfold removeTodo
  rw [if_neg (by omega : ¬((i : Int) < 0 ∨ (todos.length : Int) ≤ (i : Int)))]
  simp only [toNat_coe]
  rw [if_neg (by omega :
        ¬((ti : Int) < 0 ∨
          ((todos.getD i emptyList).items.length : Int) ≤ (ti : Int))),
    jsSplice_eraseIdx _ ti hti]

theorem moveTodo_valid (todos : List TodoList) (i s : Nat) (d : Int)
    (hi : i < todos.length)
    (hs : s < (todos.getD i emptyList).items.length) :
    moveTodo todos (i : Int) (s : Int) d =
      { result := .ok true
        todos := todos.set i
          { todos.getD i emptyList with
            items := jsSplice (jsSplice (todos.getD i emptyList).items (s : Int) 1 []) d 0
              (jsSpliceRemoved (todos.getD i emptyList).items (s : Int) 1) }
        saved := some (todos.set i
          { todos.getD i emptyList with
            items := jsSplice (jsSplice (todos.getD i emptyList).items (s : Int) 1 []) d 0
              (jsSpliceRemoved (todos.getD i emptyList).items (s : Int) 1) })
        broadcasts := [.moveTodo (i : Int) (s : Int) d] } := by
  unfold moveTodo
  rw [if_neg (by omega : ¬((i : Int) < 0 ∨ (todos.length : Int) ≤ (i : Int)))]
  simp only [toNat_coe]
  rw [if_neg (by omega :
        ¬((i : Int) < 0 ∨ (todos.length : Int) ≤ (i : Int) ∨ (s : Int) < 0 ∨
          ((todos.getD i emptyList).items.length : Int) ≤ (s : Int)))]

theorem editTodo_valid_list (todos : List TodoList) (i : Nat) (itemIndex : Int)
    (v : Todo) (hi : i < todos.length) :
    editTodo todos (i : Int) itemIndex v =
      { result :=
          if itemIndex < 0 ∨
              ((todos.getD i emptyList).items.length : Int) ≤ itemIndex then
            .error 400 "index out of bound"
          else .ok true
        todos := todos.set i
          { todos.getD i emptyList with
            items := jsWrite (todos.getD i emptyList).items itemIndex none (some v) }
        saved := some (todos.set i
          { todos.getD i emptyList with
            items := jsWrite (todos.getD i emptyList).items itemIndex none (some v) })
        broadcasts := [.editTodo (i : Int) itemIndex v] } := by
  unfold editTodo
  rw [if_neg (by omega : ¬((i : Int) < 0 ∨ (todos.length : Int) ≤ (i : Int)))]
  simp only [toNat_coe]
  rw [if_congr (show ((i : Int) < 0 ∨ (todos.length : Int) ≤ (i : Int) ∨ itemIndex < 0 ∨
        ((todos.getD i emptyList).items.length : Int) ≤ itemIndex) ↔
          (itemIndex < 0 ∨
            ((todos.getD i emptyList).items.length : Int) ≤ itemIndex) by omega)
    rfl rfl]

/-- Frame facts of `todos.set`: every other index reads unchanged, and the
element written at `i` is read back at `i`. -/
theorem set_frame (todos : List TodoList) (i j : Nat) (tl : TodoList)
    (hi : i < todos.length) :
    (j ≠ i → (todos.set i tl)[j]? = todos[j]?) ∧
    ((todos.set i tl).getD i emptyList).name = tl.name := by
  constructor
  · intro hj
    exact List.getElem?_set_ne (Ne.symm hj)
  · rw [getD_set_self todos i tl emptyList hi]

/-! ### Claims -/

/-- C5: `createList(name)` on success appends `{name, items: []}` at the end,
returns the previous length (= new length − 1), persists the new sequence,
and broadcasts CreateList with the full new list; from the empty persisted
state, `createList("work")` returns index 0 and persists
`[{name := "work", items := []}]`. -/
theorem C5_createList_appends (todos : List TodoList) (nm : String) :
    (createList todos nm).result = .ok todos.length ∧
    (createList todos nm).todos = todos ++ [{ items := [], name := nm }] ∧
    (createList todos nm).saved = some (todos ++ [{ items := [], name := nm }]) ∧
    (createList todos nm).broadcasts = [.createList { items := [], name := nm }] ∧
    (createList (loadTodos (.parsed [])) "work").result = .ok 0 ∧
    (createList (loadTodos (.parsed [])) "work").saved =
      some [{ items := [], name := "work" }] ∧
    (createList (loadTodos (.parsed [])) "work").broadcasts =
      [.createList { items := [], name := "work" }] := by
  refine ⟨?_, rfl, rfl, rfl, rfl, rfl, rfl⟩
  simp [createList]

/-- C1 (counterexample): with the single default list, `deleteList(-1)` — an
index outside `[0, count)` — settles with ValidationError(400, "index out of
bound") but ALSO removes the last list (the splice clamps -1 to count − 1)
and broadcasts a DeleteList message, contradicting the claim that the list
sequence is unchanged and that no broadcast is emitted. -/
theorem C1_counterexample :
    (deleteList initTodos (-1)).result = .error 400 "index out of bound" ∧
    (deleteList initTodos (-1)).todos = [] ∧
    (deleteList initTodos (-1)).broadcasts = [.deleteList (-1)] := by
  decide

/-- C1 (amended): for every index outside `[0, count)`, `deleteList` (when
its success-rate sample succeeds) settles with ValidationError(400, "index
out of bound") but still broadcasts DeleteList with the given index and
still persists: for index ≥ count the sequence happens to be unchanged (the
splice removes nothing), while for index < 0 the splice clamps the start to
max(count + index, 0) and removes the list there when any list exists. -/
theorem C1_deleteList_out_of_range (todos : List TodoList) (listIndex : Int)
    (h : listIndex < 0 ∨ (todos.length : Int) ≤ listIndex) :
    (deleteList todos listIndex).result = .error 400 "index out of bound" ∧
    (deleteList todos listIndex).broadcasts = [.deleteList listIndex] ∧
    (deleteList todos listIndex).saved = some (deleteList todos listIndex).todos ∧
    ((todos.length : Int) ≤ listIndex → (deleteList todos listIndex).todos = todos) ∧
    (listIndex < 0 →
      (deleteList todos listIndex).todos =
        todos.eraseIdx ((todos.length : Int) + listIndex).toNat) := by
  refine ⟨?_, rfl, rfl, ?_, ?_⟩
  · show (if listIndex < 0 ∨ (todos.length : Int) ≤ listIndex then
        ApiResult.error 400 "index out of bound" else ApiResult.ok true) = _
    rw [if_pos h]
  · intro hge
    show jsSplice todos listIndex 1 [] = todos
    unfold jsSplice spliceStart
    rw [if_neg (by omega : ¬listIndex < 0),
      min_eq_right (by omega : todos.length ≤ listIndex.toNat)]
    show List.take todos.length todos ++ [] ++
        List.drop (todos.length + 1) todos = todos
    rw [List.take_length, List.drop_eq_nil_of_le (by omega)]
    simp
  · intro hlt
    show jsSplice todos listIndex 1 [] = _
    unfold jsSplice spliceStart
    rw [if_pos hlt, List.eraseIdx_eq_take_drop_succ]
    simp

/-- C1 (witness): the amended statement at the default one-list state and
index 2. -/
theorem C1_witness :
    (deleteList initTodos 2).result = .error 400 "index out of bound" ∧
    (deleteList initTodos 2).broadcasts = [.deleteList 2] ∧
    (deleteList initTodos 2).saved = some (deleteList initTodos 2).todos ∧
    ((initTodos.length : Int) ≤ 2 → (deleteList initTodos 2).todos = initTodos) ∧
    ((2 : Int) < 0 →
      (deleteList initTodos 2).todos =
        initTodos.eraseIdx ((initTodos.length : Int) + 2).toNat) :=
  C1_deleteList_out_of_range initTodos 2 (by decide)

/-- C4: `removeTodo` with an out-of-range listIndex or itemIndex (success
sample passing) fails with ValidationError(400, "index out of bound"),
leaves the state unchanged, writes nothing to storage, and broadcasts
nothing; in particular removeItem(0, 5) on a 2-item list returns
ValidationError(400) and the list still has its 2 items. -/
theorem C4_removeItem_invalid_rejects (todos : List TodoList)
    (listIndex itemIndex : Int)
    (h : listIndex < 0 ∨ (todos.length : Int) ≤ listIndex ∨ itemIndex < 0 ∨
      ((todos.getD listIndex.toNat emptyList).items.length : Int) ≤ itemIndex) :
    ((removeTodo todos listIndex itemIndex).result =
        .error 400 "index out of bound" ∧
     (removeTodo todos listIndex itemIndex).todos = todos ∧
     (removeTodo todos listIndex itemIndex).saved = none ∧
     (removeTodo todos listIndex itemIndex).broadcasts = []) ∧
    ((removeTodo [{ items := [some itemA, some itemB], name := "list" }] 0 5).result =
        .error 400 "index out of bound" ∧
     (removeTodo [{ items := [some itemA, some itemB], name := "list" }] 0 5).todos =
        [{ items := [some itemA, some itemB], name := "list" }] ∧
     (removeTodo [{ items := [some itemA, some itemB], name := "list" }] 0 5).broadcasts =
        []) := by
  constructor
  · by_cases h1 : listIndex < 0 ∨ (todos.length : Int) ≤ listIndex
    · simp only [removeTodo]
      rw [if_pos h1]
      exact ⟨rfl, rfl, rfl, rfl⟩
    · have h2 : itemIndex < 0 ∨
          ((todos.getD listIndex.toNat emptyList).items.length : Int) ≤ itemIndex := by
        rcases h with h | h | h | h
        · exact absurd (Or.inl h) h1
        · exact absurd (Or.inr h) h1
        · exact Or.inl h
        · exact Or.inr h
      simp only [removeTodo]
      rw [if_neg h1, if_pos h2]
      exact ⟨rfl, rfl, rfl, rfl⟩
  · exact ⟨by decide, by decide, by decide⟩

/-- C4 (witness): the statement at the default one-list state, listIndex 5,
itemIndex 0. -/
theorem C4_witness :
    ((removeTodo initTodos 5 0).result = .error 400 "index out of bound" ∧
     (removeTodo initTodos 5 0).todos = initTodos ∧
     (removeTodo initTodos 5 0).saved = none ∧
     (removeTodo initTodos 5 0).broadcasts = []) ∧
    ((removeTodo [{ items := [some itemA, some itemB], name := "list" }] 0 5).result =
        .error 400 "index out of bound" ∧
     (removeTodo [{ items := [some itemA, some itemB], name := "list" }] 0 5).todos =
        [{ items := [some itemA, some itemB], name := "list" }] ∧
     (removeTodo [{ items := [some itemA, some itemB], name := "list" }] 0 5).broadcasts =
        []) :=
  C4_removeItem_invalid_rejects initTodos 5 0 (by decide)

theorem jsWrite_getElem_ge (l : List α) (i : Int) (hole v : α)
    (hge : (l.length : Int) ≤ i) :
    (jsWrite l i hole v)[i.toNat]? = some v := by
  unfold jsWrite
  rw [if_neg (by omega : ¬i < 0), if_neg (by omega : ¬i.toNat < l.length)]
  have hlen : (l ++ List.replicate (i.toNat - l.length) hole).length = i.toNat := by
    rw [List.length_append, List.length_replicate]
    omega
  rw [List.getElem?_append_right hlen.le, hlen]
  simp

/-- C2 (counterexample): for the valid list 0 and the out-of-range (because
negative) itemIndex −1, `editTodo` flags ValidationError(400) but does NOT
write newValue into the items sequence: a JavaScript bracket assignment at a
negative index creates a non-element property, so the sequence — and with
it the persisted blob — is unchanged and newValue appears at no position. -/
theorem C2_counterexample :
    (editTodo [{ items := [some itemA], name := "list" }] 0 (-1) itemB).result =
      .error 400 "index out of bound" ∧
    (editTodo [{ items := [some itemA], name := "list" }] 0 (-1) itemB).todos =
      [{ items := [some itemA], name := "list" }] ∧
    some itemB ∉
      ((editTodo [{ items := [some itemA], name := "list" }] 0 (-1) itemB).todos.getD 0
        emptyList).items := by
  decide

/-- C2 (amended): for every state, valid listIndex and out-of-range
itemIndex, `editTodo` (success sample passing) settles with
ValidationError(400, "index out of bound") yet still persists and
broadcasts EditItem with `{listIndex, itemIndex, newValue}`; when
itemIndex ≥ the list's item count it also still writes a copy of newValue
at position itemIndex (extending the array, holes in between), whereas for
a negative itemIndex the write is a non-element property assignment and the
items sequence is persisted unchanged. -/
theorem C2_editItem_flags_yet_writes (todos : List TodoList) (listIndex : Nat)
    (itemIndex : Int) (newValue : Todo) (hl : listIndex < todos.length) :
    ((((todos.getD listIndex emptyList).items.length : Int) ≤ itemIndex →
      (editTodo todos (listIndex : Int) itemIndex newValue).result =
          .error 400 "index out of bound" ∧
      ((editTodo todos (listIndex : Int) itemIndex newValue).todos.getD listIndex
          emptyList).items[itemIndex.toNat]? = some (some newValue) ∧
      (editTodo todos (listIndex : Int) itemIndex newValue).saved =
        some (editTodo todos (listIndex : Int) itemIndex newValue).todos ∧
      (editTodo todos (listIndex : Int) itemIndex newValue).broadcasts =
        [.editTodo (listIndex : Int) itemIndex newValue])) ∧
    (itemIndex < 0 →
      (editTodo todos (listIndex : Int) itemIndex newValue).result =
          .error 400 "index out of bound" ∧
      (editTodo todos (listIndex : Int) itemIndex newValue).todos = todos ∧
      (editTodo todos (listIndex : Int) itemIndex newValue).saved = some todos ∧
      (editTodo todos (listIndex : Int) itemIndex newValue).broadcasts =
        [.editTodo (listIndex : Int) itemIndex newValue]) := by
  rw [editTodo_valid_list todos listIndex itemIndex newValue hl]
  constructor
  · intro hge
    refine ⟨?_, ?_, rfl, rfl⟩
    · show (if itemIndex < 0 ∨
          ((todos.getD listIndex emptyList).items.length : Int) ≤ itemIndex then
            ApiResult.error 400 "index out of bound" else ApiResult.ok true) = _
      rw [if_pos (Or.inr hge)]
    · rw [getD_set_self todos listIndex _ emptyList hl]
      exact jsWrite_getElem_ge _ itemIndex none (some newValue) hge
  · intro hneg
    have hw : jsWrite (todos.getD listIndex emptyList).items itemIndex none
        (some newValue) = (todos.getD listIndex emptyList).items := by
      unfold jsWrite
      rw [if_pos hneg]
    refine ⟨?_, ?_, ?_, rfl⟩
    · show (if itemIndex < 0 ∨
          ((todos.getD listIndex emptyList).items.length : Int) ≤ itemIndex then
            ApiResult.error 400 "index out of bound" else ApiResult.ok true) = _
      rw [if_pos (Or.inl hneg)]
    · show todos.set listIndex
        { todos.getD listIndex emptyList with
          items := jsWrite (todos.getD listIndex emptyList).items itemIndex none
            (some newValue) } = todos
      rw [hw]
      exact set_getD_self todos listIndex emptyList hl
    · show some (todos.set listIndex
        { todos.getD listIndex emptyList with
          items := jsWrite (todos.getD listIndex emptyList).items itemIndex none
            (some newValue) }) = some todos
      rw [hw]
      exact congrArg some (set_getD_self todos listIndex emptyList hl)

/-- C2 (witness): the amended statement applied at a one-item list, once
with itemIndex 5 (past the end: the write lands at position 5) and once
with itemIndex −2 (negative: the sequence is unchanged). -/
theorem C2_witness :
    ((editTodo [{ items := [some itemA], name := "list" }] ((0 : Nat) : Int) 5
        itemB).todos.getD 0 emptyList).items[(5 : Int).toNat]? = some (some itemB) ∧
    (editTodo [{ items := [some itemA], name := "list" }] ((0 : Nat) : Int) (-2)
        itemB).todos = [{ items := [some itemA], name := "list" }] :=
  ⟨((C2_editItem_flags_yet_writes [{ items := [some itemA], name := "list" }] 0 5
      itemB (by decide)).1 (by decide)).2.1,
   ((C2_editItem_flags_yet_writes [{ items := [some itemA], name := "list" }] 0 (-2)
      itemB (by decide)).2 (by decide)).2.1⟩

/-- C3: `moveTodo` with a valid listIndex, a valid sourceIndex and any
destIndex ≥ 0 succeeds, removes the item at sourceIndex and inserts it at
destIndex in the shortened sequence (clamped to its length, so a destIndex
at or past the end appends); on a list with items [A, B, C],
moveItem(0, 0, 2) yields order [B, C, A]. -/
theorem C3_moveItem_reorders (todos : List TodoList) (listIndex sourceIndex : Nat)
    (destIndex : Int) (cur : TodoList)
    (hcur : todos.getD listIndex emptyList = cur)
    (hl : listIndex < todos.length) (hs : sourceIndex < cur.items.length)
    (hd : 0 ≤ destIndex) :
    (moveTodo todos (listIndex : Int) (sourceIndex : Int) destIndex).result =
      .ok true ∧
    ((moveTodo todos (listIndex : Int) (sourceIndex : Int) destIndex).todos.getD
        listIndex emptyList).items =
      (cur.items.eraseIdx sourceIndex).take
          (min destIndex.toNat (cur.items.eraseIdx sourceIndex).length) ++
        cur.items[sourceIndex] ::
          (cur.items.eraseIdx sourceIndex).drop
            (min destIndex.toNat (cur.items.eraseIdx sourceIndex).length) ∧
    (((cur.items.eraseIdx sourceIndex).length : Int) ≤ destIndex →
      ((moveTodo todos (listIndex : Int) (sourceIndex : Int) destIndex).todos.getD
          listIndex emptyList).items =
        cur.items.eraseIdx sourceIndex ++ [cur.items[sourceIndex]]) ∧
    (moveTodo [{ items := [some itemA, some itemB, some itemC], name := "list" }]
        0 0 2).todos =
      [{ items := [some itemB, some itemC, some itemA], name := "list" }] := by
  subst hcur
  rw [moveTodo_valid todos listIndex sourceIndex destIndex hl hs]
  refine ⟨rfl, ?_, ?_, by decide⟩
  · rw [getD_set_self todos listIndex _ emptyList hl]
    exact jsSplice_move (todos.getD listIndex emptyList).items sourceIndex destIndex
      hs hd
  · intro hbig
    rw [getD_set_self todos listIndex _ emptyList hl]
    show jsSplice
        (jsSplice (todos.getD listIndex emptyList).items (sourceIndex : Int) 1 [])
        destIndex 0
        (jsSpliceRemoved (todos.getD listIndex emptyList).items (sourceIndex : Int) 1) = _
    rw [jsSplice_move (todos.getD listIndex emptyList).items sourceIndex destIndex
        hs hd,
      min_eq_right (by omega :
        ((todos.getD listIndex emptyList).items.eraseIdx sourceIndex).length ≤
          destIndex.toNat),
      List.take_length, List.drop_length]

/-- C3 (witness): moving the first of three items to position 2. -/
theorem C3_witness :
    (moveTodo [{ items := [some itemA, some itemB, some itemC], name := "list" }]
        ((0 : Nat) : Int) ((0 : Nat) : Int) 2).result = .ok true ∧
    (moveTodo [{ items := [some itemA, some itemB, some itemC], name := "list" }]
        0 0 2).todos =
      [{ items := [some itemB, some itemC, some itemA], name := "list" }] :=
  ⟨(C3_moveItem_reorders
      [{ items := [some itemA, some itemB, some itemC], name := "list" }] 0 0 2
      { items := [some itemA, some itemB, some itemC], name := "list" } rfl
      (by decide) (by decide) (by decide)).1,
   (C3_moveItem_reorders
      [{ items := [some itemA, some itemB, some itemC], name := "list" }] 0 0 2
      { items := [some itemA, some itemB, some itemC], name := "list" } rfl
      (by decide) (by decide) (by decide)).2.2.2⟩

/-- C6: for every state and valid listIndex, `addTodo` (success sample
passing) succeeds, and `removeTodo` at the index of the newly appended item
— the length the list had before the add — succeeds and restores the whole
store state, in particular that list's item sequence, to its value before
the add. -/
theorem C6_add_remove_roundtrip (todos : List TodoList) (listIndex : Nat)
    (item : Todo) (hl : listIndex < todos.length) :
    (addTodo todos (listIndex : Int) item).result = .ok true ∧
    (removeTodo (addTodo todos (listIndex : Int) item).todos (listIndex : Int)
        (((todos.getD listIndex emptyList).items.length : Nat) : Int)).result =
      .ok true ∧
    (removeTodo (addTodo todos (listIndex : Int) item).todos (listIndex : Int)
        (((todos.getD listIndex emptyList).items.length : Nat) : Int)).todos =
      todos := by
  have hadd : (addTodo todos (listIndex : Int) item).todos =
      todos.set listIndex
        { todos.getD listIndex emptyList with
          items := (todos.getD listIndex emptyList).items ++ [some item] } := by
    rw [addTodo_valid todos listIndex item hl]
  have hlen2 : listIndex < (addTodo todos (listIndex : Int) item).todos.length := by
    rw [hadd, List.length_set]
    exact hl
  have hgetD : (addTodo todos (listIndex : Int) item).todos.getD listIndex
      emptyList =
      { todos.getD listIndex emptyList with
        items := (todos.getD listIndex emptyList).items ++ [some item] } := by
    rw [hadd]
    exact getD_set_self todos listIndex _ emptyList hl
  have hk : (todos.getD listIndex emptyList).items.length <
      ((addTodo todos (listIndex : Int) item).todos.getD listIndex
        emptyList).items.length := by
    rw [hgetD]
    simp
  have herase : ((todos.getD listIndex emptyList).items ++ [some item]).eraseIdx
      (todos.getD listIndex emptyList).items.length =
      (todos.getD listIndex emptyList).items := by
    rw [List.eraseIdx_eq_take_drop_succ, List.take_left,
      List.drop_eq_nil_of_le (by simp), List.append_nil]
  refine ⟨?_, ?_, ?_⟩
  · rw [addTodo_valid todos listIndex item hl]
  · rw [removeTodo_valid ((addTodo todos (listIndex : Int) item).todos) listIndex
      (todos.getD listIndex emptyList).items.length hlen2 hk]
  · rw [removeTodo_valid ((addTodo todos (listIndex : Int) item).todos) listIndex
      (todos.getD listIndex emptyList).items.length hlen2 hk]
    show (addTodo todos (listIndex : Int) item).todos.set listIndex
      { (addTodo todos (listIndex : Int) item).todos.getD listIndex emptyList with
        items := ((addTodo todos (listIndex : Int) item).todos.getD listIndex
          emptyList).items.eraseIdx (todos.getD listIndex emptyList).items.length }
      = todos
    rw [hgetD, hadd]
    show (todos.set listIndex _).set listIndex
      { todos.getD listIndex emptyList with
        items := ((todos.getD listIndex emptyList).items ++ [some item]).eraseIdx
          (todos.getD listIndex emptyList).items.length } = todos
    rw [herase, List.set_set]
    exact set_getD_self todos listIndex emptyList hl

/-- C6 (witness): adding an item to the default (empty) list and removing it
at index 0 restores the default state. -/
theorem C6_witness :
    (addTodo initTodos ((0 : Nat) : Int) itemA).result = .ok true ∧
    (removeTodo (addTodo initTodos ((0 : Nat) : Int) itemA).todos ((0 : Nat) : Int)
        (((initTodos.getD 0 emptyList).items.length : Nat) : Int)).result =
      .ok true ∧
    (removeTodo (addTodo initTodos ((0 : Nat) : Int) itemA).todos ((0 : Nat) : Int)
        (((initTodos.getD 0 emptyList).items.length : Nat) : Int)).todos =
      initTodos :=
  C6_add_remove_roundtrip initTodos 0 itemA (by decide)

/-- C7: `moveTodo` with destIndex = sourceIndex (both valid) succeeds and
leaves the store state — in particular the list's item sequence —
unchanged, yet still persists the (identical) state and still broadcasts a
MoveItem message. -/
theorem C7_move_to_same_index (todos : List TodoList) (listIndex sourceIndex : Nat)
    (hl : listIndex < todos.length)
    (hs : sourceIndex < (todos.getD listIndex emptyList).items.length) :
    (moveTodo todos (listIndex : Int) (sourceIndex : Int)
        (sourceIndex : Int)).result = .ok true ∧
    (moveTodo todos (listIndex : Int) (sourceIndex : Int)
        (sourceIndex : Int)).todos = todos ∧
    (moveTodo todos (listIndex : Int) (sourceIndex : Int)
        (sourceIndex : Int)).saved = some todos ∧
    (moveTodo todos (listIndex : Int) (sourceIndex : Int)
        (sourceIndex : Int)).broadcasts =
      [.moveTodo (listIndex : Int) (sourceIndex : Int) (sourceIndex : Int)] := by
  rw [moveTodo_valid todos listIndex sourceIndex (sourceIndex : Int) hl hs]
  refine ⟨rfl, ?_, ?_, rfl⟩
  · show todos.set listIndex
      { todos.getD listIndex emptyList with
        items := jsSplice
          (jsSplice (todos.getD listIndex emptyList).items (sourceIndex : Int) 1 [])
          (sourceIndex : Int) 0
          (jsSpliceRemoved (todos.getD listIndex emptyList).items
            (sourceIndex : Int) 1) } = todos
    rw [jsSplice_move_self (todos.getD listIndex emptyList).items sourceIndex hs]
    exact set_getD_self todos listIndex emptyList hl
  · show some (todos.set listIndex
      { todos.getD listIndex emptyList with
        items := jsSplice
          (jsSplice (todos.getD listIndex emptyList).items (sourceIndex : Int) 1 [])
          (sourceIndex : Int) 0
          (jsSpliceRemoved (todos.getD listIndex emptyList).items
            (sourceIndex : Int) 1) }) = some todos
    rw [jsSplice_move_self (todos.getD listIndex emptyList).items sourceIndex hs]
    exact congrArg some (set_getD_self todos listIndex emptyList hl)

/-- C7 (witness): moving item 1 of a two-item list onto itself. -/
theorem C7_witness :
    (moveTodo [{ items := [some itemA, some itemB], name := "list" }]
        ((0 : Nat) : Int) ((1 : Nat) : Int) ((1 : Nat) : Int)).result = .ok true ∧
    (moveTodo [{ items := [some itemA, some itemB], name := "list" }]
        ((0 : Nat) : Int) ((1 : Nat) : Int) ((1 : Nat) : Int)).todos =
      [{ items := [some itemA, some itemB], name := "list" }] ∧
    (moveTodo [{ items := [some itemA, some itemB], name := "list" }]
        ((0 : Nat) : Int) ((1 : Nat) : Int) ((1 : Nat) : Int)).saved =
      some [{ items := [some itemA, some itemB], name := "list" }] ∧
    (moveTodo [{ items := [some itemA, some itemB], name := "list" }]
        ((0 : Nat) : Int) ((1 : Nat) : Int) ((1 : Nat) : Int)).broadcasts =
      [.moveTodo ((0 : Nat) : Int) ((1 : Nat) : Int) ((1 : Nat) : Int)] :=
  C7_move_to_same_index [{ items := [some itemA, some itemB], name := "list" }]
    0 1 (by decide) (by decide)

theorem map_fst_pairs (l : List α) (m : SocketMessage) :
    (l.map (fun c => (c, m))).map Prod.fst = l := by
  induction l with
  | nil => rfl
  | cons a t ih => simp only [List.map_cons]; rw [ih]

theorem map_snd_pairs (l : List α) (m : SocketMessage) :
    (l.map (fun c => (c, m))).map Prod.snd = List.replicate l.length m := by
  induction l with
  | nil => rfl
  | cons a t ih =>
    simp only [List.map_cons, List.length_cons, List.replicate_succ]
    rw [ih]

theorem map_seq_pairs (l : List α) (m : SocketMessage) :
    (l.map (fun c => (c, m))).map (fun p => p.2.sequenceId) =
      List.replicate l.length m.sequenceId := by
  induction l with
  | nil => rfl
  | cons a t ih =>
    simp only [List.map_cons, List.length_cons, List.replicate_succ]
    rw [ih]

/-- C8: `dispatchMessage` delivers to each currently-registered listener in
registration order, every delivered envelope is `{sequenceId: counter,
...event}` with the socket's single shared counter at call time, and the
counter is not incremented by the dispatch itself: two consecutive
dispatches stamp the same sequenceId. -/
theorem C8_dispatch_order_and_shared_counter (α : Type) (s : FakeSocket α)
    (e1 e2 : RawMessage) :
    ((s.dispatchMessage e1).map Prod.fst = s.clients) ∧
    ((s.dispatchMessage e1).map Prod.snd =
      List.replicate s.clients.length { sequenceId := s.sequenceId, raw := e1 }) ∧
    ((s.dispatchMessage e1).map (fun p => p.2.sequenceId) =
      (s.dispatchMessage e2).map (fun p => p.2.sequenceId)) := by
  refine ⟨map_fst_pairs s.clients _, map_snd_pairs s.clients _, ?_⟩
  show (s.clients.map (fun c =>
      (c, ({ sequenceId := s.sequenceId, raw := e1 } : SocketMessage)))).map
        (fun p => p.2.sequenceId) =
    (s.clients.map (fun c =>
      (c, ({ sequenceId := s.sequenceId, raw := e2 } : SocketMessage)))).map
        (fun p => p.2.sequenceId)
  rw [map_seq_pairs s.clients _, map_seq_pairs s.clients _]

/-- C9: subscribing the same listener twice yields two deliveries per
published event (on top of any deliveries for prior registrations);
unsubscribing removes exactly the registrations equal to the listener,
leaving every other listener's registration count unchanged; unsubscribing
an unregistered listener leaves the socket unchanged. -/
theorem C9_subscribe_unsubscribe (α : Type) [DecidableEq α] (s : FakeSocket α)
    (L : α) (e : RawMessage) :
    ((((s.addListener L).addListener L).dispatchMessage e).map Prod.fst).count L =
      s.clients.count L + 2 ∧
    (∀ c : α, (s.removeListener L).clients.count c =
      if c = L then 0 else s.clients.count c) ∧
    (L ∉ s.clients → s.removeListener L = s) := by
  refine ⟨?_, ?_, ?_⟩
  · have hmap : ((((s.addListener L).addListener L).dispatchMessage e).map
        Prod.fst) = (s.clients ++ [L]) ++ [L] :=
      map_fst_pairs ((s.clients ++ [L]) ++ [L]) _
    rw [hmap, List.count_append, List.count_append]
    simp
  · intro c
    by_cases hc : c = L
    · subst hc
      rw [if_pos rfl]
      unfold FakeSocket.removeListener
      rw [List.count_eq_zero]
      intro hmem
      have hdec := (List.mem_filter.mp hmem).2
      simp at hdec
    · rw [if_neg hc]
      unfold FakeSocket.removeListener
      exact List.count_filter (by simp [hc])
  · intro hL
    have hfil : s.clients.filter (fun currentClient => currentClient ≠ L) =
        s.clients :=
      List.filter_eq_self.mpr (fun a ha => by
        simp
        intro heq
        exact hL (heq ▸ ha))
    unfold FakeSocket.removeListener
    rw [hfil]

/-- C9 (witness): the statement at a socket with clients [1, 2], listener 5
and a DeleteList event. -/
theorem C9_witness :
    ((((sampleSocket.addListener 5).addListener 5).dispatchMessage
        (.deleteList 0)).map Prod.fst).count 5 = sampleSocket.clients.count 5 + 2 ∧
    (sampleSocket.removeListener 5).clients.count 1 =
      (if (1 : Nat) = 5 then 0 else sampleSocket.clients.count 1) ∧
    sampleSocket.removeListener 5 = sampleSocket :=
  ⟨(C9_subscribe_unsubscribe Nat sampleSocket 5 (.deleteList 0)).1,
   (C9_subscribe_unsubscribe Nat sampleSocket 5 (.deleteList 0)).2.1 1,
   (C9_subscribe_unsubscribe Nat sampleSocket 5 (.deleteList 0)).2.2 (by decide)⟩

/-- C10: every successful item mutation (addTodo, removeTodo, moveTodo,
editTodo) with valid indices targeting list listIndex succeeds, leaves every
list at an index other than listIndex unchanged, and preserves the targeted
list's name (only its items sequence may differ). -/
theorem C10_mutations_preserve_frame :
    (∀ (todos : List TodoList) (listIndex j : Nat) (item : Todo),
      listIndex < todos.length →
      (addTodo todos (listIndex : Int) item).result = .ok true ∧
      (j ≠ listIndex →
        (addTodo todos (listIndex : Int) item).todos[j]? = todos[j]?) ∧
      ((addTodo todos (listIndex : Int) item).todos.getD listIndex emptyList).name =
        (todos.getD listIndex emptyList).name) ∧
    (∀ (todos : List TodoList) (listIndex itemIndex j : Nat),
      listIndex < todos.length →
      itemIndex < (todos.getD listIndex emptyList).items.length →
      (removeTodo todos (listIndex : Int) (itemIndex : Int)).result = .ok true ∧
      (j ≠ listIndex →
        (removeTodo todos (listIndex : Int) (itemIndex : Int)).todos[j]? =
          todos[j]?) ∧
      ((removeTodo todos (listIndex : Int) (itemIndex : Int)).todos.getD listIndex
        emptyList).name = (todos.getD listIndex emptyList).name) ∧
    (∀ (todos : List TodoList) (listIndex sourceIndex j : Nat) (destIndex : Int),
      listIndex < todos.length →
      sourceIndex < (todos.getD listIndex emptyList).items.length →
      (moveTodo todos (listIndex : Int) (sourceIndex : Int) destIndex).result =
        .ok true ∧
      (j ≠ listIndex →
        (moveTodo todos (listIndex : Int) (sourceIndex : Int) destIndex).todos[j]? =
          todos[j]?) ∧
      ((moveTodo todos (listIndex : Int) (sourceIndex : Int) destIndex).todos.getD
        listIndex emptyList).name = (todos.getD listIndex emptyList).name) ∧
    (∀ (todos : List TodoList) (listIndex itemIndex j : Nat) (newValue : Todo),
      listIndex < todos.length →
      itemIndex < (todos.getD listIndex emptyList).items.length →
      (editTodo todos (listIndex : Int) (itemIndex : Int) newValue).result =
        .ok true ∧
      (j ≠ listIndex →
        (editTodo todos (listIndex : Int) (itemIndex : Int) newValue).todos[j]? =
          todos[j]?) ∧
      ((editTodo todos (listIndex : Int) (itemIndex : Int) newValue).todos.getD
        listIndex emptyList).name = (todos.getD listIndex emptyList).name) := by
  refine ⟨?_, ?_, ?_, ?_⟩
  · intro todos listIndex j item hl
    rw [addTodo_valid todos listIndex item hl]
    exact ⟨rfl, (set_frame todos listIndex j _ hl).1,
      (set_frame todos listIndex j _ hl).2⟩
  · intro todos listIndex itemIndex j hl hi
    rw [removeTodo_valid todos listIndex itemIndex hl hi]
    exact ⟨rfl, (set_frame todos listIndex j _ hl).1,
      (set_frame todos listIndex j _ hl).2⟩
  · intro todos listIndex sourceIndex j destIndex hl hs
    rw [moveTodo_valid todos listIndex sourceIndex destIndex hl hs]
    exact ⟨rfl, (set_frame todos listIndex j _ hl).1,
      (set_frame todos listIndex j _ hl).2⟩
  · intro todos listIndex itemIndex j newValue hl hi
    rw [editTodo_valid_list todos listIndex (itemIndex : Int) newValue hl]
    refine ⟨?_, (set_frame todos listIndex j _ hl).1,
      (set_frame todos listIndex j _ hl).2⟩
    show (if (itemIndex : Int) < 0 ∨
        ((todos.getD listIndex emptyList).items.length : Int) ≤ (itemIndex : Int)
        then ApiResult.error 400 "index out of bound" else ApiResult.ok true) = _
    rw [if_neg (by omega)]

/-- C10 (witness): one instance of each conjunct on the two-list sample. -/
theorem C10_witness :
    (addTodo sampleTodos ((0 : Nat) : Int) itemC).todos[(1 : Nat)]? =
      sampleTodos[(1 : Nat)]? ∧
    ((removeTodo sampleTodos ((0 : Nat) : Int) ((0 : Nat) : Int)).todos.getD 0
      emptyList).name = (sampleTodos.getD 0 emptyList).name ∧
    (moveTodo sampleTodos ((0 : Nat) : Int) ((0 : Nat) : Int) 1).result = .ok true ∧
    (editTodo sampleTodos ((0 : Nat) : Int) ((0 : Nat) : Int) itemC).result =
      .ok true :=
  ⟨(C10_mutations_preserve_frame.1 sampleTodos 0 1 itemC (by decide)).2.1 (by decide),
   (C10_mutations_preserve_frame.2.1 sampleTodos 0 0 0 (by decide) (by decide)).2.2,
   (C10_mutations_preserve_frame.2.2.1 sampleTodos 0 0 0 1 (by decide)
     (by decide)).1,
   (C10_mutations_preserve_frame.2.2.2 sampleTodos 0 0 0 itemC (by decide)
     (by decide)).1⟩

end TodoApiModel
